import Mathlib

/-!
Verification development for the etl-geonet-quakes repository.

The repository contains small scheduled ETL tasks (TypeScript) that fetch
earthquake feeds (USGS, GeoNet), filter records against configured
thresholds, and emit geospatial point features.  This file shallowly embeds
the deterministic parts of those tasks — configuration parsing, the
per-record filter, and the record-to-feature mapping — and proves the
specification's claims about them.

Numbers are modelled by `ℚ` (the code works on JavaScript numbers used as
exact decimals; no claim depends on floating-point rounding).  A JavaScript
`NaN` produced by `Number(...)` is modelled by `Option ℚ` with `none` for
`NaN`.  Output features are projected onto the fields the claims mention
(identifier, marker color, geometry coordinates); timestamp formatting and
the free-text remarks block are not modelled.
-/

/-- Numeric value of a list of decimal digit characters, most significant
first.  Helper for the JavaScript `Number(...)` model. -/
def digitsVal (l : List Char) : ℕ :=
  l.foldl (fun a c => a * 10 + (c.toNat - 48)) 0

/-- All characters in the list are decimal digits. -/
def allDigits (l : List Char) : Bool :=
  l.all (fun c => c.isDigit)

/-- Body of the JavaScript `Number(...)` model, after the optional sign has
been stripped: an optional integer part, an optional dot, an optional
fractional part; `none` models `NaN`. -/
def jsNumberCore (body : List Char) : Option ℚ :=
  if body.isEmpty then none
  else
    let intPart := body.takeWhile (fun c => c ≠ '.')
    let rest := body.dropWhile (fun c => c ≠ '.')
    match rest with
    | [] => if allDigits intPart then some (digitsVal intPart) else none
    | _ :: fracPart =>
      if fracPart.contains '.' then none
      else if intPart.isEmpty && fracPart.isEmpty then none
      else if allDigits intPart && allDigits fracPart then
        some ((digitsVal intPart : ℚ) + (digitsVal fracPart : ℚ) / (10 : ℚ) ^ fracPart.length)
      else none

/-- Model of JavaScript `Number(s)` on the decimal strings the tasks
receive: optional sign, decimal digits, optional fraction; the empty string
coerces to `0`; `none` models `NaN`. -/
def jsNumber (s : String) : Option ℚ :=
  if s = "" then some 0
  else
    match s.toList with
    | '-' :: body => (jsNumberCore body).map (fun q => -q)
    | '+' :: body => jsNumberCore body
    | body => jsNumberCore body

/-- Embeds the longitude membership test of `src/task.ts` lines 130-133 (also
`src/unnamed/part_001` lines 79-82): AND semantics for a normal box, OR
semantics when `minLon > maxLon` (antimeridian-crossing box). -/
def lonInBox (minLon maxLon lon : ℚ) : Bool :=
  if minLon ≤ maxLon then decide (lon ≥ minLon ∧ lon ≤ maxLon)
  else decide (lon ≥ minLon ∨ lon ≤ maxLon)

/-- Embeds `ALERT_COLORS` of `src/task.ts` lines 8-14; `none` models an
absent key of the JavaScript record. -/
def ALERT_COLORS (level : String) : Option String :=
  if level = "none" then some ("#ffffff")
  else if level = "green" then some ("#00ff00")
  else if level = "yellow" then some ("#ffff00")
  else if level = "orange" then some ("#ff7f00")
  else if level = "red" then some ("#ff0000")
  else none

/-- Embeds `ESTIMATED_FATALITIES` of `src/task.ts` lines 16-22. -/
def ESTIMATED_FATALITIES (level : String) : Option String :=
  if level = "none" then some ("0")
  else if level = "green" then some ("0")
  else if level = "yellow" then some ("1 - 99")
  else if level = "orange" then some ("100 - 999")
  else if level = "red" then some ("1,000+")
  else none

/-- Embeds `ESTIMATED_LOSSES` of `src/task.ts` lines 24-30. -/
def ESTIMATED_LOSSES (level : String) : Option String :=
  if level = "none" then some ("< $1 million USD")
  else if level = "green" then some ("< $1 million USD")
  else if level = "yellow" then some ("$1 million USD - $100 million USD")
  else if level = "orange" then some ("$100 million USD - $1 billion USD")
  else if level = "red" then some ("$1 billion+ USD")
  else none

/-- Embeds `MAX_AGE_LIMIT` of `src/task.ts` line 32 (7 days in minutes). -/
def MAX_AGE_LIMIT : ℚ := 10080

/-- Model of JavaScript `toLowerCase()` on the ASCII alert strings:
lowercase every character. -/
def jsToLower (s : String) : String :=
  String.mk (s.data.map Char.toLower)

/-- Embeds `(props.alert || 'none').toLowerCase()` of `src/task.ts` line
135; `none` models an absent/null `alert` property, which like the empty
string is falsy in JavaScript. -/
def alertLevelOf (alert : Option String) : String :=
  jsToLower (match alert with
   | none => "none"
   | some s => if s = "" then "none" else s)

/-- Embeds `ALERT_COLORS[alertLevel] || '#ffffff'` of `src/task.ts` line 138. -/
def markerColorOf (alert : Option String) : String :=
  (ALERT_COLORS (alertLevelOf alert)).getD ("#ffffff")

/-- Embeds `ESTIMATED_FATALITIES[alertLevel] || '0'` of `src/task.ts` line 136. -/
def estimatedFatalitiesOf (alert : Option String) : String :=
  (ESTIMATED_FATALITIES (alertLevelOf alert)).getD ("0")

/-- Embeds `ESTIMATED_LOSSES[alertLevel] || '< $1 million USD'` of
`src/task.ts` line 137. -/
def estimatedLossesOf (alert : Option String) : String :=
  (ESTIMATED_LOSSES (alertLevelOf alert)).getD ("< $1 million USD")

/-- Point geometry of an upstream GeoJSON feature: a 2- or 3-element
coordinate array `[lon, lat, depth?]`. -/
structure PointGeometry where
  coordinates : List ℚ
deriving DecidableEq

/-- Properties of a USGS feed record as consumed by `src/task.ts`
(schema lines 50-65).  `alert` is `Option String`: the code guards it with
`props.alert || ...`, treating an absent value like the empty string. -/
structure USGSProps where
  title : String
  mag : ℚ
  place : String
  time : ℚ
  type : String
  alert : Option String
  url : String
deriving DecidableEq

/-- A USGS feed record as consumed by `src/task.ts`. -/
structure USGSFeature where
  id : String
  properties : USGSProps
  geometry : PointGeometry
deriving DecidableEq

/-- Projection of an emitted output feature onto the fields the claims
mention: identifier, marker color, geometry coordinates. -/
structure OutFeature where
  id : String
  markerColor : String
  coordinates : List ℚ
deriving DecidableEq

/-- The string configuration fields of `src/task.ts` (`Env`, lines 34-47). -/
structure Env where
  minMagnitude : String
  boundingBox : String
  maxAgeMinutes : String
deriving DecidableEq

/-- The parsed configuration of `src/task.ts` after validation and clamping. -/
structure TaskConfig where
  minLat : ℚ
  maxLat : ℚ
  minLon : ℚ
  maxLon : ℚ
  minMagnitude : ℚ
  maxAgeMinutes : ℚ
deriving DecidableEq

/-- Splits a character list at every comma; mirrors JavaScript
`split(',')`, under which the empty string yields `[""]` and adjacent
commas yield empty components. -/
def splitCommaChars : List Char → List (List Char)
  | [] => [[]]
  | c :: cs =>
    match splitCommaChars cs with
    | [] => [[c]]
    | h :: t => if c = ',' then [] :: h :: t else (c :: h) :: t

/-- Model of JavaScript `s.split(',')`. -/
def splitComma (s : String) : List String :=
  (splitCommaChars s.data).map String.mk

/-- Element `i` of a list of parsed numbers; a missing element models the
`undefined` produced by JavaScript array destructuring, which `isNaN`
treats as `NaN` (`none`). -/
def nthNum (l : List (Option ℚ)) (i : ℕ) : Option ℚ :=
  (l[i]?).getD none

/-- Embeds the configuration parsing and validation of `src/task.ts` lines
92-107: split the bounding box on commas, coerce with `Number`, fail if any
of the first four entries is `NaN` (which includes a short split), then
parse magnitude and max age, clamping the latter to `MAX_AGE_LIMIT`. -/
def parseEnv (e : Env) : Except String TaskConfig :=
  let nums := (splitComma e.boundingBox).map jsNumber
  match nthNum nums 0, nthNum nums 1, nthNum nums 2, nthNum nums 3 with
  | some minLat, some maxLat, some minLon, some maxLon =>
    match jsNumber e.minMagnitude with
    | none => Except.error ("Invalid minimum magnitude value")
    | some minMagnitude =>
      match jsNumber e.maxAgeMinutes with
      | none => Except.error ("Invalid max age minutes value")
      | some maxAge =>
        Except.ok ⟨minLat, maxLat, minLon, maxLon, minMagnitude, min maxAge MAX_AGE_LIMIT⟩
  | _, _, _, _ =>
    Except.error ("Invalid bounding box format. Expected: minLat,maxLat,minLon,maxLon")

/-- Embeds the age condition of `src/task.ts` line 143 (also
`src/unnamed/part_001` line 87): drop the record when
`now - time > maxAgeMinutes * 60 * 1000`. -/
def usgsAgeExceeded (now time maxAge : ℚ) : Bool :=
  decide (now - time > maxAge * 60 * 1000)

/-- Embeds the age condition of the GeoNet variant
(`src/unnamed/part_000` lines 398-401): the age is first converted to
fractional minutes, then compared with the configured maximum. -/
def geonetAgeExceeded (now time maxAge : ℚ) : Bool :=
  decide ((now - time) / (1000 * 60) > maxAge)

/-- Embeds the `continue` condition of the `src/task.ts` filter loop, lines
139-145. -/
def usgsSkip (cfg : TaskConfig) (now : ℚ) (f : USGSFeature) : Bool :=
  let coords := f.geometry.coordinates
  let lat := coords.getD 1 0
  let lon := coords.getD 0 0
  decide (f.properties.mag < cfg.minMagnitude) ||
  decide (lat < cfg.minLat) || decide (lat > cfg.maxLat) ||
  !(lonInBox cfg.minLon cfg.maxLon lon) ||
  usgsAgeExceeded now f.properties.time cfg.maxAgeMinutes ||
  decide (f.properties.type ≠ "earthquake")

/-- Embeds the record-to-feature mapping of `src/task.ts` lines 146-177,
projected onto identifier, marker color and geometry: the identifier is the
feed identifier with the fixed `earthquake-` tag, the depth defaults to `0`
when the third coordinate is absent, and the geometry is
`[lon, lat, -depth]`. -/
def usgsMap (f : USGSFeature) : OutFeature :=
  let coords := f.geometry.coordinates
  let lat := coords.getD 1 0
  let lon := coords.getD 0 0
  let depth := coords.getD 2 0
  { id := "earthquake-" ++ f.id
    markerColor := markerColorOf f.properties.alert
    coordinates := [lon, lat, -depth] }

/-- Embeds the sequential filter-and-push loop of `src/task.ts` lines
120-178 as a left fold that appends the mapped feature unless the skip
condition fires. -/
def usgsPipeline (cfg : TaskConfig) (now : ℚ) (feats : List USGSFeature) : List OutFeature :=
  feats.foldl (fun acc f => if usgsSkip cfg now f then acc else acc ++ [usgsMap f]) []

/-- Embeds the `control` flow of `src/task.ts` lines 87-189: parse and
validate the configuration, and only then consult the fetch outcome; a
fetch failure or the submitted feature list is produced afterwards. -/
def taskControl (e : Env) (now : ℚ) (fetched : Except String (List USGSFeature)) :
    Except String (List OutFeature) :=
  match parseEnv e with
  | Except.error msg => Except.error msg
  | Except.ok cfg =>
    match fetched with
    | Except.error msg => Except.error ("Failed to fetch data: " ++ msg)
    | Except.ok body => Except.ok (usgsPipeline cfg now body)

/-- Properties of a GeoNet feed record (`src/unnamed/part_000` lines
331-346).  The `time` field models `new Date(props.time).getTime()`, the
epoch-millisecond value the code derives from the ISO string. -/
structure GeoNetProps where
  publicID : String
  time : ℚ
  depth : ℚ
  magnitude : ℚ
  mmi : ℚ
  locality : String
  quality : String
deriving DecidableEq

/-- A GeoNet feed record. -/
structure GeoNetFeature where
  properties : GeoNetProps
  geometry : PointGeometry
deriving DecidableEq

/-- Embeds `MMI_COLORS` of `src/unnamed/part_000` lines 291-303. -/
def MMI_COLORS (mmi : ℚ) : Option String :=
  if mmi = -1 then some ("#FFF7F3")
  else if mmi = 0 then some ("transparent")
  else if mmi = 1 then some ("#FFF7F3")
  else if mmi = 2 then some ("#FEEDDE")
  else if mmi = 3 then some ("#FDD0A2")
  else if mmi = 4 then some ("#FDAE6B")
  else if mmi = 5 then some ("#FD8D3C")
  else if mmi = 6 then some ("#F16913")
  else if mmi = 7 then some ("#F03B20")
  else if mmi = 8 then some ("#BD0026")
  else if mmi = 9 then some ("#A30021")
  else none

/-- The string configuration fields of the GeoNet variant
(`src/unnamed/part_000` lines 319-328). -/
structure GeoEnv where
  mmi : String
  maxAgeMinutes : String
deriving DecidableEq

/-- The parsed configuration of the GeoNet variant. -/
structure GeoConfig where
  mmi : ℚ
  maxAgeMinutes : ℚ
deriving DecidableEq

/-- Embeds the configuration parsing and validation of the GeoNet variant
(`src/unnamed/part_000` lines 370-380): the MMI must be numeric and lie in
`-1..8`, then the max age must be numeric; no clamping is applied. -/
def geonetParse (e : GeoEnv) : Except String GeoConfig :=
  match jsNumber e.mmi with
  | none => Except.error ("Invalid MMI value. Must be between -1 and 8")
  | some m =>
    if m < -1 ∨ m > 8 then Except.error ("Invalid MMI value. Must be between -1 and 8")
    else
      match jsNumber e.maxAgeMinutes with
      | none => Except.error ("Invalid max age minutes value")
      | some a => Except.ok ⟨m, a⟩

/-- Embeds the `continue` condition of the GeoNet filter loop
(`src/unnamed/part_000` lines 398-401). -/
def geonetSkip (cfg : GeoConfig) (now : ℚ) (f : GeoNetFeature) : Bool :=
  geonetAgeExceeded now f.properties.time cfg.maxAgeMinutes

/-- Embeds the GeoNet record-to-feature mapping (`src/unnamed/part_000`
lines 407-431), projected onto identifier, marker color and geometry. -/
def geonetMap (f : GeoNetFeature) : OutFeature :=
  let coords := f.geometry.coordinates
  let lon := coords.getD 0 0
  let lat := coords.getD 1 0
  { id := "earthquake-" ++ f.properties.publicID
    markerColor := (MMI_COLORS f.properties.mmi).getD ("#000000")
    coordinates := [lon, lat, -f.properties.depth] }

/-- Embeds the GeoNet sequential filter-and-push loop
(`src/unnamed/part_000` lines 393-432). -/
def geonetPipeline (cfg : GeoConfig) (now : ℚ) (feats : List GeoNetFeature) : List OutFeature :=
  feats.foldl (fun acc f => if geonetSkip cfg now f then acc else acc ++ [geonetMap f]) []

/-- Embeds the GeoNet `control` flow (`src/unnamed/part_000` lines
368-444): validate the configuration first, then consult the fetch
outcome. -/
def geonetControl (e : GeoEnv) (now : ℚ) (fetched : Except String (List GeoNetFeature)) :
    Except String (List OutFeature) :=
  match geonetParse e with
  | Except.error msg => Except.error msg
  | Except.ok cfg =>
    match fetched with
    | Except.error msg => Except.error ("Failed to fetch data: " ++ msg)
    | Except.ok body => Except.ok (geonetPipeline cfg now body)

/-- Properties of a USGS record as consumed by the 2-D variant
(`src/unnamed/part_001` lines 25-37). -/
structure Usgs2dProps where
  mag : ℚ
  place : String
  time : ℚ
  url : String
deriving DecidableEq

/-- A USGS record as consumed by the 2-D variant. -/
structure Usgs2dFeature where
  id : String
  properties : Usgs2dProps
  geometry : PointGeometry
deriving DecidableEq

/-- Projection of an output feature of the 2-D variant: identifier and
geometry coordinates (this variant emits no marker color). -/
structure OutFeature2d where
  id : String
  coordinates : List ℚ
deriving DecidableEq

/-- The parsed configuration of the 2-D variant (`src/unnamed/part_001`
lines 62-65); the parse applies no validation and no clamping. -/
structure Config2d where
  minLat : ℚ
  maxLat : ℚ
  minLon : ℚ
  maxLon : ℚ
  minMagnitude : ℚ
  maxAgeMinutes : ℚ
  cotLifetimeSeconds : ℚ
deriving DecidableEq

/-- Embeds the effective maximum-age threshold of the 2-D variant
(`src/unnamed/part_001` line 64): `Number(env['Max Age Minutes'])` with no
clamp; the filter at line 87 uses this value directly. -/
def usgs2dEffectiveMaxAge (s : String) : Option ℚ :=
  jsNumber s

/-- Embeds the effective maximum-age threshold of `src/task.ts` lines
102-107: parse, then clamp with `Math.min` to `MAX_AGE_LIMIT`. -/
def taskEffectiveMaxAge (s : String) : Option ℚ :=
  (jsNumber s).map (fun a => min a MAX_AGE_LIMIT)

/-- Embeds the `continue` condition of the 2-D variant's filter loop
(`src/unnamed/part_001` lines 83-88): as `src/task.ts` but with no event
classification test. -/
def usgs2dSkip (cfg : Config2d) (now : ℚ) (f : Usgs2dFeature) : Bool :=
  let coords := f.geometry.coordinates
  let lat := coords.getD 1 0
  let lon := coords.getD 0 0
  decide (f.properties.mag < cfg.minMagnitude) ||
  decide (lat < cfg.minLat) || decide (lat > cfg.maxLat) ||
  !(lonInBox cfg.minLon cfg.maxLon lon) ||
  usgsAgeExceeded now f.properties.time cfg.maxAgeMinutes

/-- Embeds the 2-D variant's record-to-feature mapping
(`src/unnamed/part_001` lines 89-112): the emitted geometry is the
two-element `[lon, lat]`, with no elevation. -/
def usgs2dMap (f : Usgs2dFeature) : OutFeature2d :=
  let coords := f.geometry.coordinates
  let lat := coords.getD 1 0
  let lon := coords.getD 0 0
  { id := "earthquake-" ++ f.id
    coordinates := [lon, lat] }

/-- Embeds the 2-D variant's sequential filter-and-push loop
(`src/unnamed/part_001` lines 71-113). -/
def usgs2dPipeline (cfg : Config2d) (now : ℚ) (feats : List Usgs2dFeature) : List OutFeature2d :=
  feats.foldl (fun acc f => if usgs2dSkip cfg now f then acc else acc ++ [usgs2dMap f]) []

/-- A sample USGS properties record: magnitude 5 earthquake at epoch time 0. -/
def sampUsgsProps : USGSProps :=
  { title := "M 5.0 - somewhere", mag := 5, place := "somewhere", time := 0,
    type := "earthquake", alert := none, url := "https://example.org/ev" }

/-- A sample USGS record with a 3-element coordinate array. -/
def sampFeat1 : USGSFeature :=
  { id := "a", properties := sampUsgsProps, geometry := { coordinates := [175, -41, 12] } }

/-- A sample USGS record with a 2-element coordinate array (absent depth). -/
def sampFeat2 : USGSFeature :=
  { id := "b", properties := sampUsgsProps, geometry := { coordinates := [175, -41] } }

/-- A permissive parsed configuration for `src/task.ts`. -/
def defCfg : TaskConfig :=
  { minLat := -90, maxLat := 90, minLon := -180, maxLon := 180,
    minMagnitude := 2, maxAgeMinutes := 60 }

/-- A configuration whose latitude range is inverted (minLat > maxLat). -/
def invCfg : TaskConfig :=
  { minLat := 5, maxLat := -5, minLon := -180, maxLon := 180,
    minMagnitude := 2, maxAgeMinutes := 60 }

/-- A sample GeoNet record. -/
def sampGeoFeat : GeoNetFeature :=
  { properties := { publicID := "g1", time := 0, depth := 10, magnitude := 5,
                    mmi := 5, locality := "Wellington", quality := "best" },
    geometry := { coordinates := [174, -41] } }

/-- A parsed GeoNet configuration. -/
def geoCfg : GeoConfig := { mmi := 5, maxAgeMinutes := 10080 }

/-- A sample record for the 2-D variant. -/
def samp2dFeat : Usgs2dFeature :=
  { id := "a", properties := { mag := 5, place := "somewhere", time := 0,
                               url := "https://example.org/ev" },
    geometry := { coordinates := [175, -41, 12] } }

/-- A permissive parsed configuration for the 2-D variant. -/
def cfg2d : Config2d :=
  { minLat := -90, maxLat := 90, minLon := -180, maxLon := 180,
    minMagnitude := 2, maxAgeMinutes := 60, cotLifetimeSeconds := 600 }

/-- A 2-D variant configuration with an inverted latitude range. -/
def invCfg2d : Config2d :=
  { minLat := 5, maxLat := -5, minLon := -180, maxLon := 180,
    minMagnitude := 2, maxAgeMinutes := 60, cotLifetimeSeconds := 600 }

/-- A configuration whose bounding box splits into five numbers. -/
def cexEnv5 : Env :=
  { minMagnitude := "3", boundingBox := "1,2,3,4,5", maxAgeMinutes := "60" }

/-- A configuration whose bounding box splits into three numbers. -/
def cexEnv3 : Env :=
  { minMagnitude := "3", boundingBox := "1,2,3", maxAgeMinutes := "60" }

/-- A configuration requesting a max age above the 10080-minute cap. -/
def clampEnv : Env :=
  { minMagnitude := "3", boundingBox := "-90,90,-180,180", maxAgeMinutes := "20000" }

/-- A GeoNet configuration with a valid MMI and a non-numeric max age. -/
def geoCexEnv : GeoEnv := { mmi := "5", maxAgeMinutes := "abc" }

/-- A GeoNet configuration with a valid MMI and a valid max age. -/
def geoOkEnv : GeoEnv := { mmi := "5", maxAgeMinutes := "10080" }


/-- The fold that models the filter-and-push loop equals filtering by the
negated skip condition followed by mapping. -/
theorem foldlPush_eq {α β : Type} (p : α → Bool) (g : α → β) :
    ∀ (l : List α) (acc : List β),
      l.foldl (fun acc f => if p f then acc else acc ++ [g f]) acc
        = acc ++ (l.filter (fun f => !p f)).map g := by
  intro l
  induction l with
  | nil => intro acc; simp
  | cons h t ih =>
    intro acc
    by_cases hp : p h
    · simp [List.foldl_cons, hp, ih, List.filter_cons]
    · simp [List.foldl_cons, hp, ih, List.filter_cons]

/-- The `src/task.ts` loop is filter-then-map. -/
theorem usgsPipeline_eq (cfg : TaskConfig) (now : ℚ) (feats : List USGSFeature) :
    usgsPipeline cfg now feats
      = (feats.filter (fun f => !usgsSkip cfg now f)).map usgsMap := by
  simpa [usgsPipeline] using foldlPush_eq (usgsSkip cfg now) usgsMap feats []

/-- The GeoNet loop is filter-then-map. -/
theorem geonetPipeline_eq (cfg : GeoConfig) (now : ℚ) (feats : List GeoNetFeature) :
    geonetPipeline cfg now feats
      = (feats.filter (fun f => !geonetSkip cfg now f)).map geonetMap := by
  simpa [geonetPipeline] using foldlPush_eq (geonetSkip cfg now) geonetMap feats []

/-- The 2-D variant loop is filter-then-map. -/
theorem usgs2dPipeline_eq (cfg : Config2d) (now : ℚ) (feats : List Usgs2dFeature) :
    usgs2dPipeline cfg now feats
      = (feats.filter (fun f => !usgs2dSkip cfg now f)).map usgs2dMap := by
  simpa [usgs2dPipeline] using foldlPush_eq (usgs2dSkip cfg now) usgs2dMap feats []

/-- Prepending the fixed `earthquake-` tag is injective. -/
theorem earthquakeTag_injective : Function.Injective (fun s : String => "earthquake-" ++ s) := by
  intro a b h
  simp only [] at h
  have h2 : ("earthquake-" ++ a).data = ("earthquake-" ++ b).data := by rw [h]
  rw [String.data_append, String.data_append] at h2
  have h3 := List.append_cancel_left h2
  cases a
  cases b
  simp only at h3
  rw [h3]

/-- C1: for every bounding box and record, the longitude membership test is
`lon ≥ minLon AND lon ≤ maxLon` when `minLon ≤ maxLon`, and
`lon ≥ minLon OR lon ≤ maxLon` when `minLon > maxLon`; with minLon=170,
maxLon=−170 longitude 175 passes and 0 fails, and with minLon=−10,
maxLon=10 longitude 0 passes and 20 fails. -/
theorem c1_lonInBox_semantics :
    (∀ minLon maxLon lon : ℚ,
      lonInBox minLon maxLon lon = true ↔
        (if minLon ≤ maxLon then minLon ≤ lon ∧ lon ≤ maxLon
         else minLon ≤ lon ∨ lon ≤ maxLon))
    ∧ lonInBox 170 (-170) 175 = true ∧ lonInBox 170 (-170) 0 = false
    ∧ lonInBox (-10) 10 0 = true ∧ lonInBox (-10) 10 20 = false := by
  refine ⟨?_, by decide, by decide, by decide, by decide⟩
  intro a b l
  by_cases h : a ≤ b <;> simp [lonInBox, h, ge_iff_le]

/-- C2: a record passes the age filter iff `now − t ≤ maxAge·60·1000`
milliseconds; the exact boundary is included and one millisecond older is
excluded, both in the USGS variants (milliseconds) and in the GeoNet
variant (fractional minutes). -/
theorem c2_age_filter_boundary :
    (∀ now t maxAge : ℚ,
        usgsAgeExceeded now t maxAge = false ↔ now - t ≤ maxAge * 60 * 1000)
    ∧ (∀ now t maxAge : ℚ,
        geonetAgeExceeded now t maxAge = false ↔ now - t ≤ maxAge * 60 * 1000)
    ∧ usgsAgeExceeded 3600000 0 60 = false ∧ usgsAgeExceeded 3600001 0 60 = true
    ∧ geonetAgeExceeded 3600000 0 60 = false ∧ geonetAgeExceeded 3600001 0 60 = true := by
  refine ⟨?_, ?_, ?_, ?_, ?_, ?_⟩
  · intro n t a
    simp [usgsAgeExceeded, not_lt]
  · intro n t a
    rw [geonetAgeExceeded]
    simp only [decide_eq_false_iff_not, not_lt]
    rw [div_le_iff₀ (by norm_num : (0:ℚ) < 1000 * 60)]
    constructor <;> intro h <;> linarith
  · simp only [usgsAgeExceeded, decide_eq_false_iff_not, not_lt]
    norm_num
  · simp only [usgsAgeExceeded, decide_eq_true_eq]
    norm_num
  · simp only [geonetAgeExceeded, decide_eq_false_iff_not, not_lt]
    norm_num
  · simp only [geonetAgeExceeded, decide_eq_true_eq]
    norm_num

/-- C3: the alert-level lookup tables are total over
none/green/yellow/orange/red, and every other alert value (absent, empty,
or unrecognized) yields exactly the none row's values: color `#ffffff`,
fatalities `0`, losses `< $1 million USD`. -/
theorem c3_alert_lookup_total_default :
    (∀ l, l ∈ [("none" : String), "green", "yellow", "orange", "red"] →
        (ALERT_COLORS l).isSome ∧ (ESTIMATED_FATALITIES l).isSome ∧
          (ESTIMATED_LOSSES l).isSome)
    ∧ (∀ alert : Option String,
        alertLevelOf alert ≠ "green" → alertLevelOf alert ≠ "yellow" →
        alertLevelOf alert ≠ "orange" → alertLevelOf alert ≠ "red" →
        markerColorOf alert = "#ffffff" ∧ estimatedFatalitiesOf alert = "0" ∧
          estimatedLossesOf alert = "< $1 million USD") := by
  constructor
  · intro l hl
    simp only [List.mem_cons, List.not_mem_nil, or_false] at hl
    rcases hl with rfl|rfl|rfl|rfl|rfl <;> exact ⟨by decide, by decide, by decide⟩
  · intro alert h1 h2 h3 h4
    by_cases hn : alertLevelOf alert = "none"
    · refine ⟨?_, ?_, ?_⟩ <;>
        simp [markerColorOf, estimatedFatalitiesOf, estimatedLossesOf,
          ALERT_COLORS, ESTIMATED_FATALITIES, ESTIMATED_LOSSES, hn]
    · refine ⟨?_, ?_, ?_⟩ <;>
        simp [markerColorOf, estimatedFatalitiesOf, estimatedLossesOf,
          ALERT_COLORS, ESTIMATED_FATALITIES, ESTIMATED_LOSSES, hn, h1, h2, h3, h4]

/-- Witness for C3 at the level string `red` and the unrecognized alert
value `blue`. -/
theorem c3_alert_lookup_witness :
    ((ALERT_COLORS ("red")).isSome ∧ (ESTIMATED_FATALITIES ("red")).isSome ∧
      (ESTIMATED_LOSSES ("red")).isSome)
    ∧ (markerColorOf (some ("blue")) = "#ffffff" ∧
        estimatedFatalitiesOf (some ("blue")) = "0" ∧
        estimatedLossesOf (some ("blue")) = "< $1 million USD") :=
  ⟨c3_alert_lookup_total_default.1 ("red") (by decide),
   c3_alert_lookup_total_default.2 (some ("blue"))
     (by decide) (by decide) (by decide) (by decide)⟩

/-- C9: the emitted collection is exactly the mapped images of the records
that pass the filter, in upstream order — filter-then-map, an
order-preserving subsequence with no reordering, deduplication, or
insertion. -/
theorem c9_order_preserving :
    (∀ (cfg : TaskConfig) (now : ℚ) (feats : List USGSFeature),
        usgsPipeline cfg now feats
          = (feats.filter (fun f => !usgsSkip cfg now f)).map usgsMap)
    ∧ (∀ (cfg : GeoConfig) (now : ℚ) (feats : List GeoNetFeature),
        geonetPipeline cfg now feats
          = (feats.filter (fun f => !geonetSkip cfg now f)).map geonetMap)
    ∧ (∀ (cfg : TaskConfig) (now : ℚ) (feats : List USGSFeature),
        (usgsPipeline cfg now feats).Sublist (feats.map usgsMap)) := by
  refine ⟨usgsPipeline_eq, geonetPipeline_eq, ?_⟩
  intro cfg now feats
  rw [usgsPipeline_eq]
  exact List.Sublist.map usgsMap (List.filter_sublist feats)

/-- C7: the `earthquake-` tag is injective, and pairwise-distinct upstream
identifiers give pairwise-distinct emitted identifiers within a run, in
both the USGS and GeoNet variants. -/
theorem c7_unique_ids :
    (∀ a b : String, "earthquake-" ++ a = "earthquake-" ++ b → a = b)
    ∧ (∀ (cfg : TaskConfig) (now : ℚ) (feats : List USGSFeature),
        (feats.map USGSFeature.id).Nodup →
        ((usgsPipeline cfg now feats).map OutFeature.id).Nodup)
    ∧ (∀ (cfg : GeoConfig) (now : ℚ) (feats : List GeoNetFeature),
        (feats.map (fun f => f.properties.publicID)).Nodup →
        ((geonetPipeline cfg now feats).map OutFeature.id).Nodup) := by
  refine ⟨fun a b h => earthquakeTag_injective h, ?_, ?_⟩
  · intro cfg now feats hn
    rw [usgsPipeline_eq, List.map_map]
    have hId : (OutFeature.id ∘ usgsMap)
        = (fun s : String => "earthquake-" ++ s) ∘ USGSFeature.id := rfl
    rw [hId, ← List.map_map]
    refine List.Nodup.map earthquakeTag_injective ?_
    exact List.Nodup.sublist (List.Sublist.map USGSFeature.id (List.filter_sublist feats)) hn
  · intro cfg now feats hn
    rw [geonetPipeline_eq, List.map_map]
    have hId : (OutFeature.id ∘ geonetMap)
        = (fun s : String => "earthquake-" ++ s) ∘ (fun f : GeoNetFeature => f.properties.publicID) := rfl
    rw [hId, ← List.map_map]
    refine List.Nodup.map earthquakeTag_injective ?_
    exact List.Nodup.sublist
      (List.Sublist.map (fun f : GeoNetFeature => f.properties.publicID)
        (List.filter_sublist feats)) hn

/-- Witness for C7 on concrete two-record and one-record runs. -/
theorem c7_unique_ids_witness :
    ((usgsPipeline defCfg 0 [sampFeat1, sampFeat2]).map OutFeature.id).Nodup ∧
      ((geonetPipeline geoCfg 0 [sampGeoFeat]).map OutFeature.id).Nodup :=
  ⟨c7_unique_ids.2.1 defCfg 0 [sampFeat1, sampFeat2] (by decide),
   c7_unique_ids.2.2 geoCfg 0 [sampGeoFeat] (by decide)⟩

/-- C10: with an inverted latitude range (minLat > maxLat) the latitude
test is unsatisfiable, so every record is excluded and the submitted
collection is empty — the latitude range has no wrap semantics. -/
theorem c10_inverted_lat_empty :
    (∀ (cfg : TaskConfig) (now : ℚ) (feats : List USGSFeature),
        cfg.maxLat < cfg.minLat → usgsPipeline cfg now feats = [])
    ∧ (∀ (cfg : Config2d) (now : ℚ) (feats : List Usgs2dFeature),
        cfg.maxLat < cfg.minLat → usgs2dPipeline cfg now feats = []) := by
  constructor
  · intro cfg now feats h
    have hskip : ∀ f : USGSFeature, usgsSkip cfg now f = true := by
      intro f
      rcases lt_or_le ((f.geometry.coordinates[1]?).getD 0) cfg.minLat with hlt|hge
      · simp [usgsSkip, hlt]
      · have hgt : (f.geometry.coordinates[1]?).getD 0 > cfg.maxLat := lt_of_lt_of_le h hge
        simp [usgsSkip, hgt]
    rw [usgsPipeline_eq]
    have hf : feats.filter (fun f => !usgsSkip cfg now f) = [] :=
      List.filter_eq_nil_iff.mpr (fun f _ => by simp [hskip f])
    rw [hf]
    rfl
  · intro cfg now feats h
    have hskip : ∀ f : Usgs2dFeature, usgs2dSkip cfg now f = true := by
      intro f
      rcases lt_or_le ((f.geometry.coordinates[1]?).getD 0) cfg.minLat with hlt|hge
      · simp [usgs2dSkip, hlt]
      · have hgt : (f.geometry.coordinates[1]?).getD 0 > cfg.maxLat := lt_of_lt_of_le h hge
        simp [usgs2dSkip, hgt]
    rw [usgs2dPipeline_eq]
    have hf : feats.filter (fun f => !usgs2dSkip cfg now f) = [] :=
      List.filter_eq_nil_iff.mpr (fun f _ => by simp [hskip f])
    rw [hf]
    rfl

/-- Witness for C10 on inverted-latitude configurations and nonempty feeds. -/
theorem c10_inverted_lat_witness :
    usgsPipeline invCfg 0 [sampFeat1] = [] ∧
      usgs2dPipeline invCfg2d 0 [samp2dFeat] = [] :=
  ⟨c10_inverted_lat_empty.1 invCfg 0 [sampFeat1] (by decide),
   c10_inverted_lat_empty.2 invCfg2d 0 [samp2dFeat] (by decide)⟩

/-- C8: every emitted feature of the 3-D `src/task.ts` variant carries
geometry `[lon, lat, −depth]` of its source record, with depth defaulting
to 0 when the third coordinate is absent (coordinates `[175, −41, 12]`
yield elevation −12); the 2-D variant emits `[lon, lat]` with no elevation
element. -/
theorem c8_point_geometry :
    (∀ (cfg : TaskConfig) (now : ℚ) (feats : List USGSFeature) (out : OutFeature),
        out ∈ usgsPipeline cfg now feats →
        ∃ g, g ∈ feats ∧ out.coordinates =
          [g.geometry.coordinates.getD 0 0, g.geometry.coordinates.getD 1 0,
            -(g.geometry.coordinates.getD 2 0)])
    ∧ (∀ (cfg : Config2d) (now : ℚ) (feats : List Usgs2dFeature) (out : OutFeature2d),
        out ∈ usgs2dPipeline cfg now feats →
        ∃ g, g ∈ feats ∧ out.coordinates =
          [g.geometry.coordinates.getD 0 0, g.geometry.coordinates.getD 1 0])
    ∧ (usgsMap sampFeat1).coordinates = [175, -41, -12]
    ∧ (usgsMap sampFeat2).coordinates = [175, -41, 0]
    ∧ (usgs2dMap samp2dFeat).coordinates = [175, -41] := by
  refine ⟨?_, ?_, by decide, by decide, by decide⟩
  · intro cfg now feats out hmem
    rw [usgsPipeline_eq] at hmem
    rcases List.mem_map.mp hmem with ⟨g, hg, rfl⟩
    exact ⟨g, List.mem_of_mem_filter hg, rfl⟩
  · intro cfg now feats out hmem
    rw [usgs2dPipeline_eq] at hmem
    rcases List.mem_map.mp hmem with ⟨g, hg, rfl⟩
    exact ⟨g, List.mem_of_mem_filter hg, rfl⟩

/-- Witness for C8 on a concrete one-record run of each variant. -/
theorem c8_point_geometry_witness :
    (∃ g, g ∈ [sampFeat1] ∧ (usgsMap sampFeat1).coordinates =
      [g.geometry.coordinates.getD 0 0, g.geometry.coordinates.getD 1 0,
        -(g.geometry.coordinates.getD 2 0)])
    ∧ (∃ g, g ∈ [samp2dFeat] ∧ (usgs2dMap samp2dFeat).coordinates =
      [g.geometry.coordinates.getD 0 0, g.geometry.coordinates.getD 1 0]) := by
  have hskip : usgsSkip defCfg 0 sampFeat1 = false := by
    simp [usgsSkip, defCfg, sampFeat1, sampUsgsProps, lonInBox, usgsAgeExceeded]
    norm_num
  have hskip2 : usgs2dSkip cfg2d 0 samp2dFeat = false := by
    simp [usgs2dSkip, cfg2d, samp2dFeat, lonInBox, usgsAgeExceeded]
    norm_num
  constructor
  · exact c8_point_geometry.1 defCfg 0 [sampFeat1] (usgsMap sampFeat1)
      (by simp [usgsPipeline, hskip])
  · exact c8_point_geometry.2.1 cfg2d 0 [samp2dFeat] (usgs2dMap samp2dFeat)
      (by simp [usgs2dPipeline, hskip2])

/-- C4: `src/task.ts` clamps the configured max age to the 10080-minute cap
(`min`), but the `src/unnamed/part_001` variant, whose configuration
description states the same cap, parses the value with no clamp, so its
filter uses the configured value as-is. -/
theorem c4_maxage_clamp_divergence :
    taskEffectiveMaxAge ("20000") = some 10080 ∧
    usgs2dEffectiveMaxAge ("20000") = some 20000 ∧
    (parseEnv clampEnv).toOption = some
      { minLat := -90, maxLat := 90, minLon := -180, maxLon := 180,
        minMagnitude := 3, maxAgeMinutes := 10080 } := by
  refine ⟨by decide, by decide, by decide⟩

/-- C5 counterexample: a bounding box splitting into five numbers does not
decompose into exactly four, yet configuration parsing succeeds — the code
only checks that the first four components are numeric. -/
theorem c5_counterexample_extra_components :
    (splitComma cexEnv5.boundingBox).length = 5 ∧ (parseEnv cexEnv5).isOk = true := by
  refine ⟨by decide, by decide⟩

/-- C5 (amended): when any of the first four bounding-box components is
missing or non-numeric, the run fails with the invalid-bounding-box error
regardless of the fetch outcome — so before any fetch is consumed. -/
theorem c5_invalid_bbox_before_fetch :
    ∀ (e : Env) (now : ℚ) (fetched : Except String (List USGSFeature)),
      (nthNum ((splitComma e.boundingBox).map jsNumber) 0 = none ∨
       nthNum ((splitComma e.boundingBox).map jsNumber) 1 = none ∨
       nthNum ((splitComma e.boundingBox).map jsNumber) 2 = none ∨
       nthNum ((splitComma e.boundingBox).map jsNumber) 3 = none) →
      taskControl e now fetched =
        Except.error ("Invalid bounding box format. Expected: minLat,maxLat,minLon,maxLon") := by
  intro e now fetched h
  have hp : parseEnv e =
      Except.error ("Invalid bounding box format. Expected: minLat,maxLat,minLon,maxLon") := by
    cases h0 : nthNum ((splitComma e.boundingBox).map jsNumber) 0 <;>
      cases h1 : nthNum ((splitComma e.boundingBox).map jsNumber) 1 <;>
        cases h2 : nthNum ((splitComma e.boundingBox).map jsNumber) 2 <;>
          cases h3 : nthNum ((splitComma e.boundingBox).map jsNumber) 3 <;>
            simp [parseEnv, h0, h1, h2, h3] at h ⊢
  simp [taskControl, hp]

/-- Witness for C5 (amended) at the wrong-arity bounding box `1,2,3`,
with an arbitrary successful fetch outcome. -/
theorem c5_invalid_bbox_witness :
    taskControl cexEnv3 0 (Except.ok []) =
      Except.error ("Invalid bounding box format. Expected: minLat,maxLat,minLon,maxLon") :=
  c5_invalid_bbox_before_fetch cexEnv3 0 (Except.ok [])
    (Or.inr (Or.inr (Or.inr (by decide))))

/-- C6 counterexample: with MMI 5 (inside −1..8) but a non-numeric max age,
the GeoNet run fails before the fetch outcome matters, so an in-domain MMI
alone does not guarantee that the run proceeds to the fetch step. -/
theorem c6_counterexample_bad_maxage :
    jsNumber ("5") = some 5 ∧ ¬((5:ℚ) < -1 ∨ (5:ℚ) > 8) ∧
    geonetControl geoCexEnv 0 (Except.ok []) =
      Except.error ("Invalid max age minutes value") := by
  refine ⟨by decide, by decide, ?_⟩
  have hp : geonetParse geoCexEnv = Except.error ("Invalid max age minutes value") := by
    have hm : jsNumber geoCexEnv.mmi = some 5 := by decide
    have ha : jsNumber geoCexEnv.maxAgeMinutes = none := by decide
    simp [geonetParse, hm, ha]
    norm_num
  simp [geonetControl, hp]

/-- C6 (amended): the GeoNet configuration fails with the MMI error exactly
when the MMI is non-numeric or outside −1..8; with an in-domain MMI and a
numeric max age the configuration parses and the run consumes the fetch
outcome (a fetch failure propagates). -/
theorem c6_mmi_validation :
    ∀ e : GeoEnv,
      ((geonetParse e = Except.error ("Invalid MMI value. Must be between -1 and 8")) ↔
        (jsNumber e.mmi = none ∨ ∃ m, jsNumber e.mmi = some m ∧ (m < -1 ∨ m > 8)))
      ∧ (∀ m a, jsNumber e.mmi = some m → ¬(m < -1 ∨ m > 8) →
          jsNumber e.maxAgeMinutes = some a →
          geonetParse e = Except.ok ⟨m, a⟩ ∧
            ∀ (now : ℚ) (msg : String),
              geonetControl e now (Except.error msg) =
                Except.error ("Failed to fetch data: " ++ msg)) := by
  intro e
  constructor
  · cases hm : jsNumber e.mmi with
    | none => simp [geonetParse, hm]
    | some m =>
      by_cases hd : m < -1 ∨ m > 8
      · simp [geonetParse, hm, hd]
      · cases ha : jsNumber e.maxAgeMinutes <;> simp [geonetParse, hm, hd, ha]
  · intro m a hm hd ha
    have hp : geonetParse e = Except.ok ⟨m, a⟩ := by
      simp [geonetParse, hm, hd, ha]
    refine ⟨hp, ?_⟩
    intro now msg
    simp [geonetControl, hp]

/-- Witness for C6 (amended) at MMI 5 and max age 10080. -/
theorem c6_mmi_validation_witness :
    geonetParse geoOkEnv = Except.ok ⟨5, 10080⟩ ∧
      geonetControl geoOkEnv 0 (Except.error ("boom")) =
        Except.error ("Failed to fetch data: " ++ "boom") := by
  have h := (c6_mmi_validation geoOkEnv).2 5 10080 (by decide) (by decide) (by decide)
  exact ⟨h.1, h.2 0 ("boom")⟩
